import Mathlib

/-!
Verification of the sightline query-interpretation and geospatial search
pipeline (src/lib/parser.ts, src/lib/geo.ts, src/lib/overpass.ts,
src/app/api/search/route.ts).  The TypeScript sources are shallowly
embedded: strings are `String`/`List Char`, JavaScript regular expressions
are given an executable backtracking semantics (`RE`, `mrun`), numbers that
only ever hold integers are `Nat`, and floating-point coordinates are
modelled by `Rat`.
-/

namespace Sightline

/-- Characters of the JavaScript regex class `\s` (ASCII portion; all inputs
considered here are ASCII). -/
def isSpaceJS (c : Char) : Bool :=
  c = ' ' || c = '\t' || c = '\n' || c = '\r' || c = '\x0b' || c = '\x0c'

/-- Characters of the JavaScript regex class `\w` (used by `\b`). -/
def isWordJS (c : Char) : Bool :=
  c.isAlphanum || c = '_'

/-- Characters matched by the regex `.` (anything but a line terminator). -/
def isDotJS (c : Char) : Bool :=
  !(c = '\n' || c = '\r')

/-- String.prototype.trim on a character list. -/
def trimL (s : List Char) : List Char :=
  ((s.dropWhile isSpaceJS).reverse.dropWhile isSpaceJS).reverse

/-- String.prototype.trim. -/
def trimS (s : String) : String :=
  String.mk (trimL s.data)

/-- String.prototype.toLowerCase (ASCII). -/
def lowerS (s : String) : String :=
  String.mk (s.data.map Char.toLower)

/-- Decide whether `n` occurs as a prefix of `h` (character lists). -/
def isPrefixL : List Char → List Char → Bool
  | [], _ => true
  | _ :: _, [] => false
  | a :: as, b :: bs => a = b && isPrefixL as bs

/-- Decide whether `n` occurs as a substring of `h`
(String.prototype.includes). -/
def infixL (n : List Char) : List Char → Bool
  | [] => isPrefixL n []
  | c :: cs => isPrefixL n (c :: cs) || infixL n cs

/-- String.prototype.includes. -/
def includesS (h n : String) : Bool :=
  infixL n.data h.data

/-- JavaScript parseInt(s, 10) on a digit string. -/
def natOfDigits (ds : List Char) : Nat :=
  ds.foldl (fun n c => n * 10 + (c.toNat - '0'.toNat)) 0

/-!
## A small semantics for the JavaScript regexes used by the parser

The constructors cover exactly the features appearing in
`src/lib/parser.ts`: literal characters and character classes, sequencing,
ordered alternation, greedy `*`/`?`, the lazy `+?` of `(.+?)`, the word
boundary `\b`, the end anchor `$`, and one capturing group.  Matching is
implemented as backtracking search returning candidate results in the same
priority order a JavaScript engine explores them, so that the head of the
result list is the match JavaScript reports.  Repetition constructors only
ever repeat bodies that consume at least one character, which is true of
every starred sub-pattern in the source (`\s`, `\d`, `[^\s]`, `.`).
-/
inductive RE where
  | eps : RE
  | cls (p : Char → Bool) : RE
  | seq (a b : RE) : RE
  | alt (a b : RE) : RE
  | star (a : RE) : RE
  | opt (a : RE) : RE
  | lazyPlus (a : RE) : RE
  | wordB : RE
  | eos : RE
  | grp (a : RE) : RE

/-- One match candidate: the remaining suffix, the character just before it
(for later word-boundary tests) and the text of the capturing group, if any
was traversed. -/
structure MRes where
  rest : List Char
  prev : Option Char
  cap : Option (List Char)

/-- Structural size of a pattern, used to pick a sufficient recursion fuel. -/
def reSize : RE → Nat
  | .eps => 1
  | .cls _ => 1
  | .seq a b => reSize a + reSize b + 1
  | .alt a b => reSize a + reSize b + 1
  | .star a => reSize a + 1
  | .opt a => reSize a + 1
  | .lazyPlus a => reSize a + 1
  | .wordB => 1
  | .eos => 1
  | .grp a => reSize a + 1

/-- Backtracking matcher.  `mrun fuel r prev s` returns every way `r` can
match a prefix of `s`, in the priority order of a JavaScript engine
(alternation picks the left branch first, `*`/`?` are greedy, `+?` is lazy).
`prev` is the character preceding `s` in the full subject string.  `fuel`
only bounds the recursion depth; `(reSize r + 2) * (length s + 2)` is always
enough because every level of nesting either descends into a strict
sub-pattern or re-enters a repetition after consuming at least one
character. -/
def mrun : Nat → RE → Option Char → List Char → List MRes
  | 0, _, _, _ => []
  | Nat.succ fuel, r, prev, s =>
    match r with
    | .eps => [⟨s, prev, none⟩]
    | .cls p =>
      match s with
      | [] => []
      | c :: rest => if p c then [⟨rest, some c, none⟩] else []
    | .seq a b =>
      (mrun fuel a prev s).flatMap (fun ra =>
        (mrun fuel b ra.prev ra.rest).map (fun rb =>
          ⟨rb.rest, rb.prev, ra.cap <|> rb.cap⟩))
    | .alt a b => mrun fuel a prev s ++ mrun fuel b prev s
    | .opt a => mrun fuel a prev s ++ [⟨s, prev, none⟩]
    | .star a =>
      ((mrun fuel a prev s).flatMap (fun ra =>
        if ra.rest.length < s.length then
          (mrun fuel (.star a) ra.prev ra.rest).map (fun rb =>
            ⟨rb.rest, rb.prev, ra.cap <|> rb.cap⟩)
        else [])) ++ [⟨s, prev, none⟩]
    | .lazyPlus a =>
      (mrun fuel a prev s).flatMap (fun ra =>
        ra :: (if ra.rest.length < s.length then
          (mrun fuel (.lazyPlus a) ra.prev ra.rest).map (fun rb =>
            ⟨rb.rest, rb.prev, ra.cap <|> rb.cap⟩)
        else []))
    | .wordB =>
      let before := match prev with | some c => isWordJS c | none => false
      let after := match s with | c :: _ => isWordJS c | [] => false
      if before ≠ after then [⟨s, prev, none⟩] else []
    | .eos =>
      match s with
      | [] => [⟨s, prev, none⟩]
      | _ :: _ => []
    | .grp a =>
      (mrun fuel a prev s).map (fun ra =>
        ⟨ra.rest, ra.prev, some (s.take (s.length - ra.rest.length))⟩)

/-- Attempt a match of `r` at offset `i` of `full`, with the given fuel.
Returns the length of the matched text and the capture, following the
engine's first (highest-priority) result. -/
def tryAt (fuel : Nat) (r : RE) (full : List Char) (i : Nat) :
    Option (Nat × Option (List Char)) :=
  let rest := full.drop i
  let prev := if i = 0 then none else full.get? (i - 1)
  match mrun fuel r prev rest with
  | [] => none
  | res :: _ => some (rest.length - res.rest.length, res.cap)

/-- Leftmost match of `r` in `full` starting at offset `from` or later:
`(start, length, capture)`.  This is the match JavaScript's
`exec`/`match`/`replace` report. -/
def searchFrom (r : RE) (full : List Char) (start : Nat) :
    Option (Nat × Nat × Option (List Char)) :=
  let fuel := (reSize r + 2) * (full.length + 2)
  (List.range (full.length + 1 - start)).findSome? (fun k =>
    (tryAt fuel r full (start + k)).map (fun lc => (start + k, lc.1, lc.2)))

/-- Leftmost match of `r` in `full` (RegExp.prototype.exec from index 0). -/
def search (r : RE) (full : List Char) : Option (Nat × Nat × Option (List Char)) :=
  searchFrom r full 0

/-- RegExp.prototype.test. -/
def reTest (r : RE) (full : List Char) : Bool :=
  (search r full).isSome

/-- Capture of group 1 of the leftmost match (String.prototype.match
followed by reading `[1]`). -/
def captureOf (r : RE) (full : List Char) : Option (List Char) :=
  match search r full with
  | some (_, _, some cap) => some cap
  | _ => none

/-- All matches of a global regex, scanning left to right over the original
string; an empty match advances the scan position by one character, as in
JavaScript. -/
def gmatchesAux (r : RE) (full : List Char) : Nat → Nat → List (Nat × Nat)
  | 0, _ => []
  | Nat.succ fuel, pos =>
    match searchFrom r full pos with
    | none => []
    | some (i, len, _) =>
      (i, len) :: gmatchesAux r full fuel (if len = 0 then i + 1 else i + len)

/-- All matches of a global regex in `full`. -/
def gmatches (r : RE) (full : List Char) : List (Nat × Nat) :=
  gmatchesAux r full (full.length + 1) 0

/-- Replace the listed `(start, length)` ranges (ascending, disjoint) of
`full` by `repl`, keeping everything else. -/
def spliceAux (full repl : List Char) : Nat → List (Nat × Nat) → List Char
  | pos, [] => full.drop pos
  | pos, (st, len) :: rest =>
    ((full.drop pos).take (st - pos)) ++ repl ++ spliceAux full repl (st + len) rest

/-- String.prototype.replace with a non-global regex and replacement text
`repl`. -/
def replaceFirst (r : RE) (repl : List Char) (full : List Char) : List Char :=
  spliceAux full repl 0 ((gmatches r full).take 1)

/-- String.prototype.replace with a global regex and replacement text
`repl`. -/
def replaceAll (r : RE) (repl : List Char) (full : List Char) : List Char :=
  spliceAux full repl 0 (gmatches r full)

/-! ### Pattern construction helpers -/

/-- Case-insensitive literal string (every pattern in the source carries the
`i` flag). -/
def lit (s : String) : RE :=
  s.data.foldr (fun c r => RE.seq (RE.cls (fun d => d.toLower = c.toLower)) r) RE.eps

/-- Ordered alternation of literals, left branch first. -/
def anyOf : List String → RE
  | [] => RE.eps
  | [s] => lit s
  | s :: rest => RE.alt (lit s) (anyOf rest)

/-- Sequence of patterns. -/
def cat (rs : List RE) : RE :=
  rs.foldr RE.seq RE.eps

/-- The pattern `\s*`. -/
def sp0 : RE := RE.star (RE.cls isSpaceJS)

/-- The pattern `\s+`. -/
def sp1 : RE := RE.seq (RE.cls isSpaceJS) sp0

/-- An optional literal, e.g. `s?`. -/
def optS (s : String) : RE := RE.opt (lit s)

/-- The word boundary `\b`. -/
def wb : RE := RE.wordB

/-- The pattern `\d+` (greedy). -/
def digits1 : RE := RE.seq (RE.cls Char.isDigit) (RE.star (RE.cls Char.isDigit))

/-- The pattern `[^\s]+` (greedy). -/
def nonSpace1 : RE :=
  RE.seq (RE.cls (fun c => !isSpaceJS c)) (RE.star (RE.cls (fun c => !isSpaceJS c)))

/-- The pattern `(.+?)` — lazy, capturing. -/
def dotLazyCap : RE := RE.grp (RE.lazyPlus (RE.cls isDotJS))

/-! ## Static lookup tables (src/lib/types.ts)

The source file declares the taxonomy twice (an older copy followed by the
complete one); the complete declaration, which includes the energy,
emergency-service and transportation additions, is the one embedded here.
Only the key and human label of each entry are needed by the claims below;
the per-key OSM tag predicates are not consulted by any verified property.
JavaScript object lookup is modelled as own-key association-list lookup. -/

/-- Keys and labels of ASSET_TYPE_MAP (src/lib/types.ts). -/
def ASSET_TYPE_MAP : List (String × String) := [
  ("telecom", "Telecom Tower"),
  ("tower", "Telecom Tower"),
  ("data_center", "Data Center"),
  ("datacenter", "Data Center"),
  ("power_plant", "Power Plant"),
  ("powerplant", "Power Plant"),
  ("substation", "Substation"),
  ("port", "Port"),
  ("harbour", "Harbour"),
  ("warehouse", "Warehouse"),
  ("airport", "Airport"),
  ("helipad", "Helipad"),
  ("railyard", "Rail Yard"),
  ("rail_yard", "Rail Yard"),
  ("refinery", "Refinery"),
  ("pipeline", "Pipeline"),
  ("solar", "Solar Farm"),
  ("wind", "Wind Farm"),
  ("nuclear", "Nuclear Plant"),
  ("dam", "Dam"),
  ("military", "Military Installation"),
  ("prison", "Prison"),
  ("hospital", "Hospital"),
  ("embassy", "Embassy"),
  ("factory", "Factory"),
  ("industrial", "Industrial Zone"),
  ("school", "School"),
  ("university", "University"),
  ("college", "College"),
  ("stadium", "Stadium"),
  ("fire_station", "Fire Station"),
  ("police", "Police Station"),
  ("courthouse", "Courthouse"),
  ("bank", "Bank"),
  ("atm", "ATM"),
  ("fuel", "Fuel Station"),
  ("gas_station", "Gas Station"),
  ("petrol", "Petrol Station"),
  ("charging_station", "EV Charging Station"),
  ("water_tower", "Water Tower"),
  ("water_treatment", "Water Treatment Plant"),
  ("wastewater", "Wastewater Plant"),
  ("sewage", "Sewage Plant"),
  ("landfill", "Landfill"),
  ("quarry", "Quarry"),
  ("mine", "Mine"),
  ("oil_well", "Oil Well"),
  ("gas_well", "Gas Well"),
  ("storage_tank", "Storage Tank"),
  ("silo", "Silo"),
  ("chimney", "Chimney"),
  ("cooling_tower", "Cooling Tower"),
  ("lighthouse", "Lighthouse"),
  ("radar", "Radar"),
  ("surveillance_camera", "Surveillance Camera"),
  ("cctv", "Surveillance Camera"),
  ("antenna", "Antenna"),
  ("mast", "Mast"),
  ("bridge", "Bridge"),
  ("tunnel", "Tunnel"),
  ("ferry_terminal", "Ferry Terminal"),
  ("bus_station", "Bus Station"),
  ("train_station", "Train Station"),
  ("metro", "Metro Station"),
  ("parking", "Parking"),
  ("cemetery", "Cemetery"),
  ("place_of_worship", "Place of Worship"),
  ("mosque", "Mosque"),
  ("church", "Church"),
  ("temple", "Temple"),
  ("synagogue", "Synagogue"),
  ("library", "Library"),
  ("museum", "Museum"),
  ("theatre", "Theatre"),
  ("cinema", "Cinema"),
  ("hotel", "Hotel"),
  ("pharmacy", "Pharmacy"),
  ("clinic", "Clinic"),
  ("dentist", "Dentist"),
  ("veterinary", "Veterinary"),
  ("post_office", "Post Office"),
  ("recycling", "Recycling Center"),
  ("observatory", "Observatory"),
  ("crane", "Crane"),
  ("windmill", "Windmill"),
  ("watermill", "Watermill"),
  ("works", "Works"),
  ("gasometer", "Gasometer"),
  ("bunker", "Bunker"),
  ("barracks", "Barracks"),
  ("airfield", "Military Airfield"),
  ("naval_base", "Naval Base"),
  ("nuclear_site", "Nuclear Site"),
  ("range", "Military Range"),
  ("checkpoint", "Checkpoint"),
  ("border_control", "Border Control"),
  ("hydroelectric", "Hydroelectric Plant"),
  ("geothermal", "Geothermal Plant"),
  ("biogas", "Biogas Plant"),
  ("biomass", "Biomass Plant"),
  ("tidal", "Tidal Power Plant"),
  ("coal", "Coal Power Plant"),
  ("gas_power", "Gas Power Plant"),
  ("oil_power", "Oil Power Plant"),
  ("transformer", "Transformer"),
  ("power_line", "Power Line"),
  ("power_pole", "Power Pole"),
  ("runway", "Runway"),
  ("taxiway", "Taxiway"),
  ("terminal", "Airport Terminal"),
  ("hangar", "Hangar"),
  ("seaport", "Seaport"),
  ("marina", "Marina"),
  ("shipyard", "Shipyard"),
  ("dock", "Dock"),
  ("tram_stop", "Tram Stop"),
  ("halt", "Railway Halt"),
  ("level_crossing", "Level Crossing"),
  ("toll_booth", "Toll Booth"),
  ("weigh_station", "Weigh Station"),
  ("cell_tower", "Cell Tower"),
  ("radio_tower", "Radio Tower"),
  ("broadcast_tower", "Broadcast Tower"),
  ("satellite_dish", "Satellite Dish"),
  ("telephone_exchange", "Telephone Exchange"),
  ("ambulance_station", "Ambulance Station"),
  ("emergency_phone", "Emergency Phone"),
  ("fire_hydrant", "Fire Hydrant"),
  ("lifeguard", "Lifeguard Station"),
  ("rescue_station", "Rescue Station"),
  ("coast_guard", "Coast Guard"),
  ("townhall", "Town Hall"),
  ("government", "Government Office"),
  ("customs", "Customs Office"),
  ("tax_office", "Tax Office"),
  ("kindergarten", "Kindergarten"),
  ("driving_school", "Driving School"),
  ("research", "Research Institute"),
  ("brewery", "Brewery"),
  ("distillery", "Distillery"),
  ("sawmill", "Sawmill"),
  ("slaughterhouse", "Slaughterhouse"),
  ("scrap_yard", "Scrap Yard"),
  ("depot", "Depot"),
  ("recycling_plant", "Recycling Plant"),
  ("sports_centre", "Sports Centre"),
  ("swimming_pool", "Swimming Pool"),
  ("golf_course", "Golf Course"),
  ("racetrack", "Racetrack"),
  ("ice_rink", "Ice Rink"),
  ("campsite", "Campsite"),
  ("caravan_site", "Caravan Site"),
  ("theme_park", "Theme Park"),
  ("zoo", "Zoo"),
  ("aquarium", "Aquarium"),
  ("viewpoint", "Viewpoint"),
  ("attraction", "Tourist Attraction"),
  ("nursing_home", "Nursing Home"),
  ("hospice", "Hospice"),
  ("blood_bank", "Blood Bank"),
  ("farm", "Farm"),
  ("greenhouse", "Greenhouse"),
  ("orchard", "Orchard"),
  ("vineyard", "Vineyard"),
  ("monument", "Monument"),
  ("memorial", "Memorial"),
  ("castle", "Castle"),
  ("fort", "Fort"),
  ("ruins", "Ruins"),
  ("archaeological_site", "Archaeological Site"),
  ("clock_tower", "Clock Tower"),
  ("bell_tower", "Bell Tower"),
  ("water_well", "Water Well"),
  ("reservoir", "Reservoir"),
  ("pumping_station", "Pumping Station"),
  ("sewage_plant", "Sewage Plant"),
  ("rest_area", "Rest Area"),
  ("service_area", "Service Area"),
  ("atc_tower", "ATC Tower")]

/-- OPERATOR_ALIASES (src/lib/types.ts): canonical operator name to alias
list, in declaration order. -/
def OPERATOR_ALIASES : List (String × List String) := [
  ("airtel", ["bharti airtel", "airtel india", "airtel telecom"]),
  ("jio", ["reliance jio", "jio infocomm"]),
  ("vodafone", ["vodafone idea", "vi", "vodafone india"]),
  ("bsnl", ["bharat sanchar nigam"]),
  ("google", ["google llc", "google inc"]),
  ("amazon", ["amazon web services", "aws"]),
  ("microsoft", ["microsoft azure", "azure"]),
  ("meta", ["facebook", "meta platforms"]),
  ("apple", ["apple inc"]),
  ("at&t", ["att", "at and t"]),
  ("verizon", ["verizon wireless"]),
  ("t-mobile", ["tmobile", "t mobile"]),
  ("vodacom", ["vodacom group"]),
  ("mtn", ["mtn group"]),
  ("orange", ["orange telecom"]),
  ("telefonica", ["movistar"]),
  ("china mobile", ["cmcc"]),
  ("china unicom", []),
  ("china telecom", []),
  ("ntpc", ["national thermal power corporation"]),
  ("adani", ["adani power", "adani green"]),
  ("tata", ["tata power", "tata steel"]),
  ("reliance", ["reliance industries", "ril"])]

/-! ## The query parser (src/lib/parser.ts) -/

/-- TYPE_PATTERNS (src/lib/parser.ts): the ordered list of natural-language
type-recognition rules, each a case-insensitive regex paired with the
canonical type key it produces.  Transcribed rule by rule from the source in
declaration order. -/
def TYPE_PATTERNS : List (RE × String) := [
  (cat [wb, anyOf ["telecom", "communication"], sp0, anyOf ["tower", "mast"], optS "s", wb], "telecom"),
  (cat [wb, lit "tower", optS "s", wb], "telecom"),
  (cat [wb, lit "data", sp0, lit "cent", anyOf ["er", "re"], optS "s", wb], "data_center"),
  (cat [wb, lit "power", sp0, anyOf ["plant", "station"], optS "s", wb], "power_plant"),
  (cat [wb, lit "substation", optS "s", wb], "substation"),
  (cat [wb, lit "port", optS "s", wb], "port"),
  (cat [wb, lit "harbo", optS "u", lit "r", optS "s", wb], "harbour"),
  (cat [wb, lit "warehouse", optS "s", wb], "warehouse"),
  (cat [wb, lit "airport", optS "s", wb], "airport"),
  (cat [wb, lit "helipad", optS "s", wb], "helipad"),
  (cat [wb, lit "rail", optS "way", sp0, lit "yard", optS "s", wb], "railyard"),
  (cat [wb, lit "refiner", anyOf ["y", "ies"], wb], "refinery"),
  (cat [wb, lit "pipeline", optS "s", wb], "pipeline"),
  (cat [wb, lit "solar", sp0, anyOf ["farm", "plant", "panel"], optS "s", wb], "solar"),
  (cat [wb, lit "wind", sp0, anyOf ["farm", "turbine"], optS "s", wb], "wind"),
  (cat [wb, lit "nuclear", sp0, anyOf ["plant", "reactor"], optS "s", wb], "nuclear"),
  (cat [wb, lit "dam", optS "s", wb], "dam"),
  (cat [wb, lit "geothermal", sp0, RE.opt (anyOf ["plant", "power", "energy"]), wb], "geothermal"),
  (cat [wb, lit "biogas", sp0, RE.opt (anyOf ["plant", "facility"]), wb], "biogas"),
  (cat [wb, lit "biomass", sp0, RE.opt (anyOf ["plant", "power", "facility"]), wb], "biomass"),
  (cat [wb, lit "tidal", sp0, RE.opt (anyOf ["power", "plant", "energy"]), wb], "tidal"),
  (cat [wb, lit "gas", sp0, RE.opt (cat [lit "power", sp0]), anyOf ["plant", "station"], optS "s", wb], "gas_power"),
  (cat [wb, lit "oil", sp0, RE.opt (cat [lit "power", sp0]), anyOf ["plant", "station"], optS "s", wb], "oil_power"),
  (cat [wb, lit "coal", sp0, RE.opt (cat [lit "power", sp0]), anyOf ["plant", "station"], optS "s", wb], "coal"),
  (cat [wb, lit "hydro", optS "electric", sp0, RE.opt (anyOf ["plant", "power", "dam"]), wb], "hydroelectric"),
  (cat [wb, lit "power", sp0, lit "line", optS "s", wb], "power_line"),
  (cat [wb, anyOf ["electricity", "electric", "power"], sp0, lit "pole", optS "s", wb], "power_pole"),
  (cat [wb, lit "transformer", optS "s", wb], "transformer"),
  (cat [wb, lit "military", sp0, RE.opt (anyOf ["base", "installation", "facility"]), wb], "military"),
  (cat [wb, lit "prison", optS "s", wb], "prison"),
  (cat [wb, lit "hospital", optS "s", wb], "hospital"),
  (cat [wb, lit "embass", anyOf ["y", "ies"], wb], "embassy"),
  (cat [wb, lit "factor", anyOf ["y", "ies"], wb], "factory"),
  (cat [wb, lit "industrial", sp0, anyOf ["zone", "area", "park"], optS "s", wb], "industrial"),
  (cat [wb, lit "school", optS "s", wb], "school"),
  (cat [wb, lit "universit", anyOf ["y", "ies"], wb], "university"),
  (cat [wb, lit "college", optS "s", wb], "college"),
  (cat [wb, lit "stadium", optS "s", wb], "stadium"),
  (cat [wb, lit "fire", sp0, lit "station", optS "s", wb], "fire_station"),
  (cat [wb, lit "police", sp0, optS "station", optS "s", wb], "police"),
  (cat [wb, lit "courthous", optS "e", optS "s", wb], "courthouse"),
  (cat [wb, lit "bank", optS "s", wb], "bank"),
  (cat [wb, lit "atm", optS "s", wb], "atm"),
  (cat [wb, anyOf ["fuel", "gas", "petrol"], sp0, lit "station", optS "s", wb], "fuel"),
  (cat [wb, RE.opt (cat [lit "ev", sp0]), lit "charging", sp0, lit "station", optS "s", wb], "charging_station"),
  (cat [wb, lit "water", sp0, lit "tower", optS "s", wb], "water_tower"),
  (cat [wb, lit "water", sp0, anyOf ["treatment", "works"], wb], "water_treatment"),
  (cat [wb, anyOf ["wastewater", "sewage"], sp0, RE.opt (anyOf ["plant", "treatment"]), wb], "wastewater"),
  (cat [wb, lit "landfill", optS "s", wb], "landfill"),
  (cat [wb, RE.alt (RE.seq (lit "quarr") (anyOf ["y", "ies"])) (RE.seq (lit "mine") (optS "s")), wb], "quarry"),
  (cat [wb, lit "oil", sp0, lit "well", optS "s", wb], "oil_well"),
  (cat [wb, lit "gas", sp0, lit "well", optS "s", wb], "gas_well"),
  (cat [wb, lit "storage", sp0, lit "tank", optS "s", wb], "storage_tank"),
  (cat [wb, lit "silo", optS "s", wb], "silo"),
  (cat [wb, lit "chimne", anyOf ["y", "ys"], wb], "chimney"),
  (cat [wb, lit "cooling", sp0, lit "tower", optS "s", wb], "cooling_tower"),
  (cat [wb, lit "lighthouse", optS "s", wb], "lighthouse"),
  (cat [wb, lit "radar", optS "s", wb], "radar"),
  (cat [wb, lit "antenna", optS "s", wb], "antenna"),
  (cat [wb, lit "mast", optS "s", wb], "mast"),
  (cat [wb, lit "bridge", optS "s", wb], "bridge"),
  (cat [wb, lit "tunnel", optS "s", wb], "tunnel"),
  (cat [wb, lit "ferr", anyOf ["y", "ies"], sp0, lit "terminal", optS "s", wb], "ferry_terminal"),
  (cat [wb, lit "bus", sp0, lit "station", optS "s", wb], "bus_station"),
  (cat [wb, anyOf ["train", "railway"], sp0, lit "station", optS "s", wb], "train_station"),
  (cat [wb, lit "metro", sp0, optS "station", optS "s", wb], "metro"),
  (cat [wb, lit "subway", sp0, optS "station", optS "s", wb], "metro"),
  (cat [wb, lit "parking", wb], "parking"),
  (cat [wb, lit "cemetar", anyOf ["y", "ies"], wb], "cemetery"),
  (cat [wb, lit "mosque", optS "s", wb], "mosque"),
  (cat [wb, lit "church", optS "e", optS "s", wb], "church"),
  (cat [wb, lit "temple", optS "s", wb], "temple"),
  (cat [wb, lit "synagogue", optS "s", wb], "synagogue"),
  (cat [wb, lit "librar", optS "i", anyOf ["y", "es"], wb], "library"),
  (cat [wb, lit "museum", optS "s", wb], "museum"),
  (cat [wb, lit "theat", anyOf ["er", "re"], optS "s", wb], "theatre"),
  (cat [wb, lit "cinema", optS "s", wb], "cinema"),
  (cat [wb, lit "hotel", optS "s", wb], "hotel"),
  (cat [wb, lit "pharmac", optS "i", anyOf ["y", "es"], wb], "pharmacy"),
  (cat [wb, lit "clinic", optS "s", wb], "clinic"),
  (cat [wb, lit "dentist", optS "s", wb], "dentist"),
  (cat [wb, lit "vet", optS "s", wb], "veterinary"),
  (cat [wb, lit "veterinar", anyOf ["y", "ies"], wb], "veterinary"),
  (cat [wb, lit "post", sp0, lit "offic", anyOf ["e", "es"], wb], "post_office"),
  (cat [wb, lit "recycling", sp0, RE.opt (RE.seq (lit "cent") (anyOf ["er", "re"])), optS "s", wb], "recycling"),
  (cat [wb, lit "observator", anyOf ["y", "ies"], wb], "observatory"),
  (cat [wb, lit "crane", optS "s", wb], "crane"),
  (cat [wb, lit "windmill", optS "s", wb], "windmill"),
  (cat [wb, lit "watermill", optS "s", wb], "watermill"),
  (cat [wb, lit "gasometer", optS "s", wb], "gasometer"),
  (cat [wb, lit "bunker", optS "s", wb], "bunker"),
  (cat [wb, lit "barracks", wb], "barracks"),
  (cat [wb, lit "airfield", optS "s", wb], "airfield"),
  (cat [wb, lit "naval", sp0, lit "base", optS "s", wb], "naval_base"),
  (cat [wb, anyOf ["firing", "shooting"], sp0, lit "range", optS "s", wb], "range"),
  (cat [wb, lit "checkpoint", optS "s", wb], "checkpoint"),
  (cat [wb, lit "border", sp0, anyOf ["control", "crossing"], optS "s", wb], "border_control"),
  (cat [wb, lit "ambulance", sp0, anyOf ["station", "depot", "base"], optS "s", wb], "ambulance_station"),
  (cat [wb, lit "rescue", sp0, anyOf ["station", "team", "base"], optS "s", wb], "rescue_station"),
  (cat [wb, lit "lifeguard", sp0, anyOf ["station", "tower", "post"], optS "s", wb], "lifeguard"),
  (cat [wb, lit "fire", sp0, lit "hydrant", optS "s", wb], "fire_hydrant"),
  (cat [wb, anyOf ["emergency", "sos"], sp0, RE.alt (lit "phone") (cat [lit "call", sp0, lit "box"]), optS "s", wb], "emergency_phone"),
  (cat [wb, lit "coast", sp0, lit "guard", optS "s", sp0, RE.opt (anyOf ["station", "base"]), wb], "coast_guard"),
  (cat [wb, lit "taxiway", optS "s", wb], "taxiway"),
  (cat [wb, lit "runway", optS "s", wb], "runway"),
  (cat [wb, RE.opt (anyOf ["airport", "airline"]), sp0, lit "terminal", optS "s", wb], "terminal"),
  (cat [wb, lit "hangar", optS "s", wb], "hangar"),
  (cat [wb, RE.alt (lit "atc") (cat [lit "air", sp0, lit "traffic", sp0, lit "control"]), sp0, optS "tower", optS "s", wb], "atc_tower"),
  (cat [wb, lit "dock", optS "s", wb], "dock"),
  (cat [wb, lit "marina", optS "s", wb], "marina"),
  (cat [wb, lit "shipyard", optS "s", wb], "shipyard"),
  (cat [wb, lit "seaport", optS "s", wb], "seaport"),
  (cat [wb, lit "tram", sp0, anyOf ["stop", "station"], optS "s", wb], "tram_stop"),
  (cat [wb, anyOf ["railway", "train"], sp0, lit "halt", optS "s", wb], "halt"),
  (cat [wb, lit "level", sp0, lit "crossing", optS "s", wb], "level_crossing"),
  (cat [wb, anyOf ["railroad", "railway"], sp0, lit "crossing", optS "s", wb], "level_crossing"),
  (cat [wb, lit "toll", sp0, anyOf ["booth", "plaza", "station"], optS "s", wb], "toll_booth"),
  (cat [wb, lit "weigh", sp0, anyOf ["station", "bridge"], optS "s", wb], "weigh_station"),
  (cat [wb, lit "rest", sp0, anyOf ["area", "stop"], optS "s", wb], "rest_area"),
  (cat [wb, lit "service", sp0, anyOf ["area", "station", "plaza"], optS "s", wb], "service_area")]

/-- NEAR_PATTERN (src/lib/parser.ts). -/
def NEAR_PATTERN : RE :=
  cat [wb, lit "near", sp1, dotLazyCap, RE.alt (cat [sp1, anyOf ["in", "within", "radius"]]) RE.eos]

/-- IN_PATTERN (src/lib/parser.ts). -/
def IN_PATTERN : RE :=
  cat [wb, lit "in", sp1, dotLazyCap, RE.alt (cat [sp1, anyOf ["near", "within"]]) RE.eos]

/-- RADIUS_PATTERN (src/lib/parser.ts). -/
def RADIUS_PATTERN : RE :=
  cat [anyOf ["within", "radius"], sp0, RE.opt (RE.cls (fun c => c = ':' || c = '=')), sp0,
    RE.grp digits1, sp0,
    RE.opt (RE.alt (lit "km") (RE.alt (RE.seq (lit "kilometer") (optS "s")) (RE.seq (lit "kilometre") (optS "s"))))]

/-- The stop-word stripping regex of extractLocation (src/lib/parser.ts). -/
def STOPWORDS : RE :=
  cat [wb, anyOf ["the", "a", "an", "all", "show", "find", "search", "get", "list"], wb]

/-- ParsedQuery (src/lib/types.ts).  `type`/`operator`/`region`/`country`/
`near` are `string | null` in the source, here `Option String`; `radius` is
a non-negative integer in every reachable state. -/
structure ParsedQuery where
  type : Option String
  operator : Option String
  region : Option String
  country : Option String
  near : Option String
  radius : Nat
  raw : String
deriving DecidableEq, Repr

/-- STRUCTURED_PATTERN test (src/lib/parser.ts): the anchored, case-
insensitive alternation of the six field prefixes, i.e. a prefix test. -/
def isStructuredQuery (query : String) : Bool :=
  ["type:", "operator:", "region:", "country:", "near:", "radius:"].any
    (fun p => isPrefixL p.data (lowerS query).data)

/-- Leftmost value captured by `/key:([^\s]+)/i` (the per-field extraction
regexes of parseStructured). -/
def fieldCapture (key : String) (query : String) : Option String :=
  (captureOf (RE.seq (lit (key ++ ":")) (RE.grp nonSpace1)) query.data).map String.mk

/-- The `/_/g → space` replacement applied to structured field values. -/
def underscoreToSpace (s : String) : String :=
  String.mk (s.data.map (fun c => if c = '_' then ' ' else c))

/-- parseStructured (src/lib/parser.ts). -/
def parseStructured (query : String) : ParsedQuery :=
  { type :=
      match fieldCapture "type" query with
      | some tv =>
        let typeKey := lowerS tv
        if (ASSET_TYPE_MAP.lookup typeKey).isSome then some typeKey else none
      | none => none
    operator := (fieldCapture "operator" query).map (fun v => underscoreToSpace (lowerS v))
    region := (fieldCapture "region" query).map underscoreToSpace
    country := (fieldCapture "country" query).map underscoreToSpace
    near := (fieldCapture "near" query).map underscoreToSpace
    radius :=
      match (captureOf (RE.seq (lit "radius:") (RE.grp digits1)) query.data).map natOfDigits with
      | some r => min r 500
      | none => 50
    raw := query }

/-- extractOperator (src/lib/parser.ts): substring containment of a
canonical operator name or any alias against the lowercased query, first
table entry wins. -/
def extractOperator (query : String) : Option String :=
  let normalized := lowerS query
  OPERATOR_ALIASES.findSome? (fun ca =>
    if includesS normalized ca.1 || ca.2.any (fun a => includesS normalized a) then
      some ca.1
    else none)

/-- extractType (src/lib/parser.ts): canonical type of the first matching
rule of TYPE_PATTERNS. -/
def extractType (query : String) : Option String :=
  TYPE_PATTERNS.findSome? (fun pt => if reTest pt.1 query.data then some pt.2 else none)

/-- extractLocation (src/lib/parser.ts): strip type phrases (first
occurrence each) and operator aliases (all occurrences), then try the
`near` pattern on the original query, the `in` pattern on the cleaned
query, and finally the residual-text fallback. -/
def extractLocation (query : String) : Option String × Option String :=
  let cleaned1 := TYPE_PATTERNS.foldl (fun s pt => replaceFirst pt.1 [] s) query.data
  let cleaned2 := OPERATOR_ALIASES.foldl (fun s ca =>
    (ca.1 :: ca.2).foldl (fun s a => replaceAll (lit a) [] s) s) cleaned1
  match captureOf NEAR_PATTERN query.data with
  | some cap => (none, some (String.mk (trimL cap)))
  | none =>
    match captureOf IN_PATTERN cleaned2 with
    | some cap => (some (String.mk (trimL cap)), none)
    | none =>
      let residual := trimL (replaceAll sp1 [' '] (replaceAll STOPWORDS [] cleaned2))
      if 2 < residual.length && residual.length < 100 then
        (some (String.mk residual), none)
      else (none, none)

/-- parseNatural (src/lib/parser.ts). -/
def parseNatural (query : String) : ParsedQuery :=
  let location := extractLocation query
  { type := extractType query
    operator := extractOperator query
    region := location.1
    country := none
    near := location.2
    radius :=
      match (captureOf RADIUS_PATTERN query.data).map natOfDigits with
      | some r => min r 500
      | none => 50
    raw := query }

/-- parseQuery (src/lib/parser.ts). -/
def parseQuery (query : String) : ParsedQuery :=
  let trimmed := trimS query
  if trimmed = "" then
    { type := none, operator := none, region := none, country := none,
      near := none, radius := 50, raw := "" }
  else if isStructuredQuery trimmed then
    parseStructured trimmed
  else
    parseNatural trimmed

/-- Validation outcome of validateQuery: `{ valid: boolean; error?: string }`. -/
structure ValidationResult where
  valid : Bool
  error : Option String
deriving DecidableEq, Repr

/-- JavaScript falsiness of a `string | null` value: null or the empty
string. -/
def isFalsy : Option String → Bool
  | none => true
  | some s => s = ""

/-- validateQuery (src/lib/parser.ts).  The source tests `!parsed.type`
etc., i.e. JavaScript falsiness. -/
def validateQuery (parsed : ParsedQuery) : ValidationResult :=
  if isFalsy parsed.type && isFalsy parsed.operator then
    { valid := false,
      error := some "Query must specify an asset type or operator. Examples: \"telecom towers in karnataka\" or \"type:data_center operator:google\"" }
  else if isFalsy parsed.region && isFalsy parsed.near && isFalsy parsed.country then
    { valid := false,
      error := some "Query must specify a geographic scope. Examples: \"in mumbai\", \"near delhi\", or \"region:karnataka\"" }
  else
    { valid := true, error := none }

/-! ## Geometry and location resolution (src/lib/geo.ts)

Floating-point coordinates and importance scores are modelled by `Rat`; the
arithmetic of the embedded functions (addition, subtraction, multiplication,
division) is exact there.  `Math.cos` is modelled by a truncated Taylor
polynomial over `Rat`; no verified property depends on its value. -/

/-- Bounding box in the source's `[south, north, west, east]` array order. -/
structure BBox where
  south : Rat
  north : Rat
  west : Rat
  east : Rat
deriving DecidableEq, Repr

/-- Rational model of `Math.PI`. -/
def piQ : Rat := 3.141592653589793

/-- Rational model of `Math.cos` (truncated Taylor series). -/
def cosQ (x : Rat) : Rat :=
  1 - x ^ 2 / 2 + x ^ 4 / 24 - x ^ 6 / 720 + x ^ 8 / 40320 - x ^ 10 / 3628800

/-- calculateBoundingBox (src/lib/geo.ts). -/
def calculateBoundingBox (lat lon radiusKm : Rat) : BBox :=
  let latDelta := radiusKm / 111
  let lonDelta := radiusKm / (111 * cosQ (lat * piQ / 180))
  { south := lat - latDelta, north := lat + latDelta,
    west := lon - lonDelta, east := lon + lonDelta }

/-- expandBoundingBox (src/lib/geo.ts); the source's default argument is
`factor = 1.1`. -/
def expandBoundingBox (bbox : BBox) (factor : Rat) : BBox :=
  let latCenter := (bbox.south + bbox.north) / 2
  let lonCenter := (bbox.west + bbox.east) / 2
  let latHalf := (bbox.north - bbox.south) / 2 * factor
  let lonHalf := (bbox.east - bbox.west) / 2 * factor
  { south := latCenter - latHalf, north := latCenter + latHalf,
    west := lonCenter - lonHalf, east := lonCenter + lonHalf }

/-- osmIdToAreaId (src/lib/geo.ts). -/
def osmIdToAreaId (osmType : String) (osmId : Nat) : Option Nat :=
  if osmType = "relation" then some (osmId + 3600000000)
  else if osmType = "way" then some (osmId + 2400000000)
  else none

/-- GeoResult (src/lib/types.ts, fields produced by geocode in
src/lib/geo.ts, including the osmType/osmId the route consumes). -/
structure GeoResult where
  displayName : String
  lat : Rat
  lon : Rat
  boundingBox : BBox
  type : String
  importance : Rat
  osmType : String
  osmId : Nat
  addressCountry : Option String
  addressState : Option String
  addressCity : Option String
deriving DecidableEq, Repr

/-- The administrative-ish place types preferred by resolveLocation
(src/lib/geo.ts). -/
def adminTypes : List String :=
  ["administrative", "state", "city", "town", "village", "county", "district"]

/-- The selection predicate of resolveLocation: administrative place type or
importance above 0.5. -/
def isAdminResult (r : GeoResult) : Bool :=
  adminTypes.contains r.type || (1 : Rat) / 2 < r.importance

/-- One comparison step of the descending-importance selection: keep the
current best unless the next candidate is strictly more important (so ties
keep the earlier candidate, as a stable sort does). -/
def maxStep (best x : GeoResult) : GeoResult :=
  if best.importance < x.importance then x else best

/-- Head of `results.sort((a, b) => b.importance - a.importance)`: with a
stable sort and a strict descending comparator this is the first element of
maximal importance, computed here by a left fold of `maxStep`. -/
def maxImportanceFirst : List GeoResult → Option GeoResult
  | [] => none
  | r :: rs => some (rs.foldl maxStep r)

/-- The candidate-selection logic of resolveLocation (src/lib/geo.ts),
applied to the ordered candidate list returned by geocode.  The network
fetch itself is outside the embedding; `resolveLocation` in the route model
is an oracle producing such a candidate choice. -/
def resolveLocationFromCandidates (results : List GeoResult) : Option GeoResult :=
  match results with
  | [] => none
  | _ =>
    match results.find? isAdminResult with
    | some r => some r
    | none => maxImportanceFirst results

/-! ## Query execution and normalization (src/lib/overpass.ts) -/

namespace Overpass

/-- Element of an Overpass response (src/lib/overpass.ts).  `center`, when
present, carries both centroid coordinates, as in the source's
`{ lat, lon }` object. -/
structure OverpassElement where
  kind : String
  id : Nat
  lat : Option Rat
  lon : Option Rat
  center : Option (Rat × Rat)
  tags : List (String × String)
deriving DecidableEq, Repr

/-- Asset (src/lib/types.ts). -/
structure Asset where
  id : String
  name : String
  type : String
  operator : Option String
  lat : Rat
  lon : Rat
  tags : List (String × String)
deriving DecidableEq, Repr

/-- Raw tag lookup (JavaScript property access on the tag record). -/
def tagGet (tags : List (String × String)) (k : String) : Option String :=
  (tags.find? (fun p => p.1 = k)).map (fun p => p.2)

/-- Tag lookup under JavaScript truthiness: a present but empty string is
falsy and behaves like an absent tag in `a || b` chains. -/
def truthyTag (tags : List (String × String)) (k : String) : Option String :=
  match tagGet tags k with
  | some s => if s = "" then none else some s
  | none => none

/-- extractName (src/lib/overpass.ts): first truthy of name, name:en, ref,
description, operator, else "Unnamed". -/
def extractName (tags : List (String × String)) : String :=
  (truthyTag tags "name" <|> truthyTag tags "name:en" <|> truthyTag tags "ref" <|>
    truthyTag tags "description" <|> truthyTag tags "operator").getD "Unnamed"

/-- extractType (src/lib/overpass.ts): the ordered tag-inference chain. -/
def extractType (tags : List (String × String)) : String :=
  match truthyTag tags "tower:type" with
  | some v => "tower:" ++ v
  | none =>
    if tagGet tags "building" = some "data_centre" then "data_center"
    else if tagGet tags "power" = some "plant" then "power_plant"
    else if tagGet tags "power" = some "substation" then "substation"
    else if tagGet tags "power" = some "generator" then
      match truthyTag tags "generator:source" with
      | some v => v
      | none => "generator"
    else if tagGet tags "aeroway" = some "aerodrome" then "airport"
    else if tagGet tags "aeroway" = some "helipad" then "helipad"
    else if tagGet tags "man_made" = some "tower" then "tower"
    else if tagGet tags "man_made" = some "communications_tower" then "cell_tower"
    else if tagGet tags "man_made" = some "surveillance" ∧
        tagGet tags "surveillance:type" = some "camera" then "surveillance_camera"
    else if tagGet tags "man_made" = some "surveillance" then "surveillance"
    else if tagGet tags "man_made" = some "antenna" then "antenna"
    else if tagGet tags "man_made" = some "mast" then "mast"
    else if tagGet tags "man_made" = some "pipeline" then "pipeline"
    else if tagGet tags "landuse" = some "port" then "port"
    else if (truthyTag tags "harbour").isSome then "harbour"
    else if tagGet tags "building" = some "warehouse" then "warehouse"
    else if tagGet tags "landuse" = some "railway" then "railyard"
    else if tagGet tags "landuse" = some "military" then "military"
    else if tagGet tags "landuse" = some "industrial" then "industrial"
    else if tagGet tags "amenity" = some "prison" then "prison"
    else if tagGet tags "amenity" = some "hospital" then "hospital"
    else if tagGet tags "amenity" = some "embassy" then "embassy"
    else if tagGet tags "waterway" = some "dam" then "dam"
    else if tagGet tags "building" = some "industrial" then "factory"
    else if (truthyTag tags "building").isSome then "building"
    else "infrastructure"

/-- The filter-and-map normalization executeQuery applies to a successful
response (src/lib/overpass.ts): keep elements with usable coordinates
(own lat/lon or centroid, via `??`), then build canonical Assets. -/
def normalizeElements (els : List OverpassElement) : List Asset :=
  (els.filter (fun el =>
      (el.lat <|> el.center.map Prod.fst).isSome &&
      (el.lon <|> el.center.map Prod.snd).isSome)).map (fun el =>
    { id := el.kind ++ "/" ++ toString el.id
      name := extractName el.tags
      type := extractType el.tags
      operator := truthyTag el.tags "operator"
      lat := (el.lat <|> el.center.map Prod.fst).getD 0
      lon := (el.lon <|> el.center.map Prod.snd).getD 0
      tags := el.tags })

/-- OVERPASS_APIS (src/lib/overpass.ts): the fixed ordered endpoint list. -/
def OVERPASS_APIS : List String :=
  ["https://overpass-api.de/api/interpreter",
   "https://maps.mail.ru/osm/tools/overpass/api/interpreter",
   "https://overpass.private.coffee/api/interpreter"]

/-- What one endpoint does with the request: a parsed successful response,
a non-success HTTP status, or a thrown transport error (timeout, abort,
network failure, body-parse failure). -/
inductive EndpointOutcome where
  | success (elements : List OverpassElement)
  | httpError (status : Nat)
  | transportError (msg : String)
deriving DecidableEq, Repr

/-- The errors executeQuery can propagate, mirroring the Error values built
in the source. -/
inductive ExecError where
  | rateLimited (endpoint : String)
  | httpFailed (status : Nat)
  | transport (msg : String)
  | noEndpoints
deriving DecidableEq, Repr

/-- Message of each error, as built by the source. -/
def errMsg : ExecError → String
  | .rateLimited e => "Rate limited by " ++ e
  | .httpFailed s => "API request failed with status " ++ toString s
  | .transport m => m
  | .noEndpoints => "All Overpass API endpoints failed"

/-- Error an endpoint's outcome produces, if it is a failure. -/
def outcomeFailure (api : String) : EndpointOutcome → Option ExecError
  | .success _ => none
  | .httpError status =>
      some (if status = 429 then .rateLimited api else .httpFailed status)
  | .transportError m => some (.transport m)

/-- Bool test for a failing outcome. -/
def isFailureB : EndpointOutcome → Bool
  | .success _ => false
  | _ => true

/-- The endpoint loop of executeQuery (src/lib/overpass.ts): endpoints are
tried strictly in order; a success returns its normalized assets at once; a
failure records `lastError` and, if endpoints remain, continues, otherwise
the recorded error is thrown.  The second component is the list of
endpoints actually contacted, in order. -/
def runEndpoints : List (String × EndpointOutcome) → Option ExecError →
    Except ExecError (List Asset) × List String
  | [], lastError => (.error (lastError.getD .noEndpoints), [])
  | (api, outcome) :: rest, _ =>
    match outcome with
    | .success els => (.ok (normalizeElements els), [api])
    | .httpError status =>
      let e := if status = 429 then ExecError.rateLimited api else ExecError.httpFailed status
      if rest.isEmpty then (.error e, [api])
      else
        let r := runEndpoints rest (some e)
        (r.1, api :: r.2)
    | .transportError m =>
      let e := ExecError.transport m
      if rest.isEmpty then (.error e, [api])
      else
        let r := runEndpoints rest (some e)
        (r.1, api :: r.2)

/-- executeQuery (src/lib/overpass.ts), as a function of what each of the
three fixed endpoints would answer. -/
def executeQuery (outcomes : List EndpointOutcome) :
    Except ExecError (List Asset) × List String :=
  runEndpoints (OVERPASS_APIS.zip outcomes) none

/-- calculateStats helper: increment a frequency bucket, inserting it at
first occurrence (JavaScript object insertion order). -/
def bump (m : List (String × Nat)) (k : String) : List (String × Nat) :=
  if m.any (fun p => p.1 = k) then
    m.map (fun p => if p.1 = k then (p.1, p.2 + 1) else p)
  else m ++ [(k, 1)]

/-- Stats record of calculateStats. -/
structure Stats where
  total : Nat
  operators : List (String × Nat)
  types : List (String × Nat)
deriving DecidableEq, Repr

/-- Bucket name for an asset's operator: the literal "Unknown" for a falsy
(null or empty) operator. -/
def opBucket : Option String → String
  | none => "Unknown"
  | some s => if s = "" then "Unknown" else s

/-- calculateStats (src/lib/overpass.ts). -/
def calculateStats (assets : List Asset) : Stats :=
  let m := assets.foldl
    (fun acc a => (bump acc.1 (opBucket a.operator), bump acc.2 a.type)) ([], [])
  { total := assets.length, operators := m.1, types := m.2 }

end Overpass

/-! ## The search route (src/app/api/search/route.ts) -/

namespace Route

open Overpass

/-- The search-cache key built by the route: the canonical filter fields of
the parsed query, not the raw text. -/
structure CacheKey where
  type : Option String
  operator : Option String
  region : Option String
  country : Option String
  near : Option String
  radius : Nat
deriving DecidableEq, Repr

/-- Cache key of a parsed query (the object literal at
src/app/api/search/route.ts lines 40-47). -/
def cacheKeyOf (p : ParsedQuery) : CacheKey :=
  { type := p.type, operator := p.operator, region := p.region,
    country := p.country, near := p.near, radius := p.radius }

/-- SearchResult (src/lib/types.ts). -/
structure SearchResult where
  results : List Asset
  stats : Stats
  bounds : BBox
  query : ParsedQuery
deriving DecidableEq, Repr

/-- Modelled from the spec: `src/lib/cache.ts` is not among the provided
sources.  Per §3/§4.9 of the specification the search cache is a key-value
store keyed by the canonical filter tuple; lookup is modelled as
association-list retrieval (entry timestamps and the unspecified
eviction/TTL policy are not modelled — no verified property depends on
them). -/
def getCachedSearchResult (cache : List (CacheKey × SearchResult)) (k : CacheKey) :
    Option SearchResult :=
  (cache.find? (fun e => e.1 = k)).map (fun e => e.2)

/-- Modelled from the spec: storing a fully-built result in the search
cache under its canonical key. -/
def cacheSearchResult (cache : List (CacheKey × SearchResult)) (k : CacheKey)
    (v : SearchResult) : List (CacheKey × SearchResult) :=
  (k, v) :: cache

/-- Modelled from the spec: the geocoding cache, keyed by the raw location
string. -/
def getCachedGeoResult (cache : List (String × GeoResult)) (k : String) :
    Option GeoResult :=
  (cache.find? (fun e => e.1 = k)).map (fun e => e.2)

/-- Modelled from the spec: storing a resolved location in the geo cache. -/
def cacheGeoResult (cache : List (String × GeoResult)) (k : String) (v : GeoResult) :
    List (String × GeoResult) :=
  (k, v) :: cache

/-- The arguments of the query-builder call the route makes:
buildOverpassQuery for a typed search, buildMultiTypeQuery for a bare
operator search.  The generated query text is irrelevant to the verified
properties; the constructor records the call faithfully. -/
inductive QuerySpec where
  | typed (assetType : String) (bbox : BBox) (operator : Option String) (areaId : Option Nat)
  | multi (operator : String) (bbox : BBox) (areaId : Option Nat)
deriving DecidableEq, Repr

/-- One outbound network call of the route. -/
inductive ExtCall where
  | geocodeCall (locationQuery : String)
  | overpassCall (spec : QuerySpec)
deriving DecidableEq, Repr

/-- The external collaborators of the route: the geocoder (resolveLocation,
which can find a location, find nothing, or throw) and the Overpass
executor (which returns normalized assets or throws). -/
structure RouteEnv where
  resolveLocation : String → Except String (Option GeoResult)
  execute : QuerySpec → Except ExecError (List Asset)

/-- The shared mutable cache state the route reads and writes. -/
structure RouteState where
  searchCache : List (CacheKey × SearchResult)
  geoCache : List (String × GeoResult)

/-- HTTP response of the route: a serialized SearchResult or an error
object with a status code. -/
inductive RouteResponse where
  | ok (result : SearchResult)
  | err (status : Nat) (message : String) (code : String)
deriving DecidableEq, Repr

/-- The outer catch of POST (src/app/api/search/route.ts lines 120-143):
classify a thrown error by its message. -/
def catchError (msg : String) : RouteResponse :=
  if includesS msg "Rate limited" then
    .err 429 "Service temporarily unavailable. Please try again in a moment." "RATE_LIMITED"
  else if includesS msg "aborted" || includesS msg "timeout" then
    .err 504 "Request timed out. Try a smaller search area." "TIMEOUT"
  else
    .err 500 "An unexpected error occurred" "INTERNAL_ERROR"

/-- JavaScript `a || b` on nullable strings. -/
def orTruthy (a b : Option String) : Option String :=
  if isFalsy a then b else a

/-- The stages of POST after a GeoResult is available (route lines 77-118):
bounding box, area id, query building, execution, stats, cache store.
`st1` and `calls` carry the state updates and the network calls already
made by the geocoding stage. -/
def pipelineTail (env : RouteEnv) (st0 : RouteState) (st1 : RouteState)
    (calls : List ExtCall) (parsed : ParsedQuery) (cacheKey : CacheKey)
    (geoResult : GeoResult) : RouteResponse × RouteState × List ExtCall :=
  let bbox :=
    if isFalsy parsed.near = false then
      calculateBoundingBox geoResult.lat geoResult.lon (parsed.radius : Rat)
    else geoResult.boundingBox
  let areaId :=
    if isFalsy parsed.near ∧ geoResult.osmType ≠ "" ∧ geoResult.osmId ≠ 0 then
      osmIdToAreaId geoResult.osmType geoResult.osmId
    else none
  let spec? : Option QuerySpec :=
    if isFalsy parsed.type = false then
      some (.typed (parsed.type.getD "") bbox parsed.operator areaId)
    else if isFalsy parsed.operator = false then
      some (.multi (parsed.operator.getD "") bbox areaId)
    else none
  match spec? with
  | none =>
    (.err 400 "Either asset type or operator must be specified" "INSUFFICIENT_FILTERS",
      st1, calls)
  | some spec =>
    match env.execute spec with
    | .error e => (catchError (errMsg e), st1, calls ++ [.overpassCall spec])
    | .ok assets =>
      let stats := calculateStats assets
      let result : SearchResult :=
        { results := assets, stats := stats, bounds := bbox, query := parsed }
      (.ok result,
        { st1 with searchCache := cacheSearchResult st0.searchCache cacheKey result },
        calls ++ [.overpassCall spec])

/-- The location-resolution stage of POST (route lines 62-75) followed by
the tail of the pipeline: consult the geo cache, otherwise call the
geocoder, store its result in the geo cache on success, and continue. -/
def geoStage (env : RouteEnv) (st : RouteState) (parsed : ParsedQuery)
    (cacheKey : CacheKey) (locationQuery : String) :
    RouteResponse × RouteState × List ExtCall :=
  match getCachedGeoResult st.geoCache locationQuery with
  | some geoResult =>
    pipelineTail env st st [] parsed cacheKey geoResult
  | none =>
    match env.resolveLocation locationQuery with
    | .error m => (catchError m, st, [.geocodeCall locationQuery])
    | .ok none =>
      (.err 400 ("Could not resolve location: " ++ locationQuery)
        "LOCATION_NOT_FOUND", st, [.geocodeCall locationQuery])
    | .ok (some geoResult) =>
      pipelineTail env st
        { st with geoCache := cacheGeoResult st.geoCache locationQuery geoResult }
        [.geocodeCall locationQuery] parsed cacheKey geoResult

/-- POST /api/search (src/app/api/search/route.ts), as a function of the
request body, the cache state and the two external collaborators.  Returns
the response, the new cache state, and the outbound calls in order. -/
def POST (env : RouteEnv) (st : RouteState) (body : Option String) :
    RouteResponse × RouteState × List ExtCall :=
  match body with
  | none => (.err 400 "Query parameter is required" "MISSING_QUERY", st, [])
  | some query =>
    if query = "" then
      (.err 400 "Query parameter is required" "MISSING_QUERY", st, [])
    else if 500 < query.length then
      (.err 400 "Query too long" "QUERY_TOO_LONG", st, [])
    else
      let parsed := parseQuery query
      let validation := validateQuery parsed
      if validation.valid = false then
        (.err 400 (validation.error.getD "") "INVALID_QUERY", st, [])
      else
        let cacheKey := cacheKeyOf parsed
        match getCachedSearchResult st.searchCache cacheKey with
        | some cached => (.ok cached, st, [])
        | none =>
          let lq := orTruthy parsed.near (orTruthy parsed.region parsed.country)
          if isFalsy lq then
            (.err 400 "Geographic scope is required" "MISSING_LOCATION", st, [])
          else
            geoStage env st parsed cacheKey (lq.getD "")

end Route

/-! ## Derived definitions used by the claims -/

/-- Radius predicted by the (amended) radius specification, stated
independently of the parser pipeline: the integer captured by the
structured `radius:` token or the natural `within`/`radius` phrase, capped
at 500 from above; 50 when absent or unparsable. -/
def radiusSpec (query : String) : Nat :=
  let trimmed := trimS query
  if trimmed = "" then 50
  else if isStructuredQuery trimmed then
    match (captureOf (RE.seq (lit "radius:") (RE.grp digits1)) trimmed.data).map natOfDigits with
    | some r => min r 500
    | none => 50
  else
    match (captureOf RADIUS_PATTERN trimmed.data).map natOfDigits with
    | some r => min r 500
    | none => 50

/-- The unknown-asset-type guard at the top of buildOverpassQuery
(src/lib/overpass.ts lines 47-50): look up the type in the taxonomy and
throw `Unknown asset type` when absent.  The query text built after a
successful check is irrelevant to the claims. -/
def buildOverpassQueryCheck (assetType : String) : Except String Unit :=
  if (ASSET_TYPE_MAP.lookup assetType).isSome then .ok ()
  else .error ("Unknown asset type: " ++ assetType)

/-! ## Shared helper lemmas -/

/-- List.find? returns the element at the first index satisfying the
predicate. -/
theorem find?_of_first {α : Type} (p : α → Bool) :
    ∀ (l : List α) (i : Nat) (h : i < l.length),
      (∀ j (hj : j < i), p (l.get ⟨j, hj.trans h⟩) = false) →
      p (l.get ⟨i, h⟩) = true → l.find? p = some (l.get ⟨i, h⟩) := by
  intro l
  induction l with
  | nil => intro i h; exact absurd h (by simp)
  | cons a as ih =>
    intro i h hprev hp
    cases i with
    | zero =>
      simp only [List.get] at hp ⊢
      simp [List.find?, hp]
    | succ i' =>
      have ha : p a = false := hprev 0 (Nat.succ_pos i')
      simp only [List.get] at hp ⊢
      rw [List.find?]
      rw [ha]
      exact ih i' (Nat.lt_of_succ_lt_succ h)
        (fun j hj => hprev (j + 1) (Nat.succ_lt_succ hj)) hp

/-- The fold used to model the head of the stable descending sort picks an
element of the list (or the seed) whose importance is maximal. -/
theorem foldl_maxStep (rs : List GeoResult) :
    ∀ (r : GeoResult),
      (List.foldl maxStep r rs = r ∨ List.foldl maxStep r rs ∈ rs) ∧
      r.importance ≤ (List.foldl maxStep r rs).importance ∧
      ∀ x ∈ rs, x.importance ≤ (List.foldl maxStep r rs).importance := by
  induction rs with
  | nil => exact fun r => ⟨Or.inl rfl, le_refl _, by simp⟩
  | cons a as ih =>
    intro r
    simp only [List.foldl]
    by_cases h : r.importance < a.importance
    · have hstep : maxStep r a = a := if_pos h
      rw [hstep]
      have hr := ih a
      refine ⟨?_, ?_, ?_⟩
      · rcases hr.1 with h1 | h1
        · exact Or.inr (by rw [h1]; exact List.mem_cons_self a as)
        · exact Or.inr (List.mem_cons_of_mem a h1)
      · exact le_trans (le_of_lt h) hr.2.1
      · intro x hx
        rcases List.mem_cons.mp hx with h2 | h2
        · rw [h2]; exact hr.2.1
        · exact hr.2.2 x h2
    · have hstep : maxStep r a = r := if_neg h
      rw [hstep]
      have hr := ih r
      refine ⟨?_, hr.2.1, ?_⟩
      · rcases hr.1 with h1 | h1
        · exact Or.inl h1
        · exact Or.inr (List.mem_cons_of_mem a h1)
      · intro x hx
        rcases List.mem_cons.mp hx with h2 | h2
        · rw [h2]; exact le_trans (le_of_not_lt h) hr.2.1
        · exact hr.2.2 x h2

/-- A findSome? over an option-producing selector only returns projections
of list members. -/
theorem findSome?_if_mem {α β : Type} (f : α → Option β) :
    ∀ (l : List α) (b : β), l.findSome? f = some b → ∃ a ∈ l, f a = some b := by
  intro l
  induction l with
  | nil => intro b h; simp [List.findSome?] at h
  | cons x xs ih =>
    intro b h
    rw [List.findSome?] at h
    cases hx : f x with
    | some v =>
      rw [hx] at h
      exact ⟨x, List.mem_cons_self x xs, hx.trans h⟩
    | none =>
      rw [hx] at h
      obtain ⟨a, ha, hfa⟩ := ih b h
      exact ⟨a, List.mem_cons_of_mem x ha, hfa⟩

/-- A successful association-list lookup means the key is one of the listed
keys. -/
theorem lookup_isSome_mem {β : Type} (k : String) :
    ∀ (l : List (String × β)), (l.lookup k).isSome = true → k ∈ l.map Prod.fst := by
  intro l
  induction l with
  | nil => intro h; simp [List.lookup] at h
  | cons p ps ih =>
    intro h
    rw [List.lookup] at h
    by_cases hk : k = p.1
    · exact hk ▸ List.mem_cons_self _ _
    · have : (k == p.1) = false := beq_false_of_ne hk
      rw [this] at h
      exact List.mem_cons_of_mem _ (ih h)

/-! ## Claims -/

/-- C7: osmIdToAreaId adds 3600000000 to relation ids and 2400000000 to way
ids, and returns null for nodes; in particular relation 123 maps to
3600000123 and node 123 to null. -/
theorem claim_C7_osm_area_id :
    (∀ id : Nat, osmIdToAreaId "relation" id = some (id + 3600000000)) ∧
    (∀ id : Nat, osmIdToAreaId "way" id = some (id + 2400000000)) ∧
    (∀ id : Nat, osmIdToAreaId "node" id = none) ∧
    osmIdToAreaId "relation" 123 = some 3600000123 ∧
    osmIdToAreaId "node" 123 = none :=
  ⟨fun _ => rfl, fun _ => rfl, fun _ => rfl, rfl, rfl⟩

/-- C8: for a well-formed box and a factor of at least 1, expandBoundingBox
keeps the center and never shrinks below the original extent. -/
theorem claim_C8_expand_bbox (b : BBox) (factor : Rat)
    (hsn : b.south ≤ b.north) (hwe : b.west ≤ b.east) (hf : 1 ≤ factor) :
    (expandBoundingBox b factor).south ≤ b.south ∧
    b.north ≤ (expandBoundingBox b factor).north ∧
    (expandBoundingBox b factor).west ≤ b.west ∧
    b.east ≤ (expandBoundingBox b factor).east ∧
    ((expandBoundingBox b factor).south + (expandBoundingBox b factor).north) / 2 =
      (b.south + b.north) / 2 ∧
    ((expandBoundingBox b factor).west + (expandBoundingBox b factor).east) / 2 =
      (b.west + b.east) / 2 := by
  simp only [expandBoundingBox]
  refine ⟨?_, ?_, ?_, ?_, by ring, by ring⟩ <;> nlinarith

/-- C8 witness: the guarantees at the concrete box (0, 2, 0, 4) with
factor 2. -/
theorem claim_C8_expand_bbox_witness :
    (expandBoundingBox ⟨0, 2, 0, 4⟩ 2).south ≤ (0 : Rat) ∧
    (2 : Rat) ≤ (expandBoundingBox ⟨0, 2, 0, 4⟩ 2).north ∧
    (expandBoundingBox ⟨0, 2, 0, 4⟩ 2).west ≤ (0 : Rat) ∧
    (4 : Rat) ≤ (expandBoundingBox ⟨0, 2, 0, 4⟩ 2).east ∧
    ((expandBoundingBox ⟨0, 2, 0, 4⟩ 2).south + (expandBoundingBox ⟨0, 2, 0, 4⟩ 2).north) / 2 =
      ((0 : Rat) + 2) / 2 ∧
    ((expandBoundingBox ⟨0, 2, 0, 4⟩ 2).west + (expandBoundingBox ⟨0, 2, 0, 4⟩ 2).east) / 2 =
      ((0 : Rat) + 4) / 2 :=
  claim_C8_expand_bbox ⟨0, 2, 0, 4⟩ 2 (by norm_num) (by norm_num) (by norm_num)

/-- C5: resolveLocation's candidate selection over the geocoder's ordered
candidate list: an empty list yields null (not an error); otherwise the
first candidate with an administrative place type or importance above 0.5
is returned; if no candidate qualifies, a candidate of maximum importance
is returned. -/
theorem claim_C5_resolve_location :
    resolveLocationFromCandidates [] = none ∧
    (∀ (rs : List GeoResult) (i : Nat) (h : i < rs.length),
      isAdminResult (rs.get ⟨i, h⟩) = true →
      (∀ j (hj : j < i), isAdminResult (rs.get ⟨j, hj.trans h⟩) = false) →
      resolveLocationFromCandidates rs = some (rs.get ⟨i, h⟩)) ∧
    (∀ rs : List GeoResult, rs ≠ [] → (∀ r ∈ rs, isAdminResult r = false) →
      ∃ r, resolveLocationFromCandidates rs = some r ∧ r ∈ rs ∧
        ∀ x ∈ rs, x.importance ≤ r.importance) := by
  refine ⟨rfl, ?_, ?_⟩
  · intro rs i h hp hprev
    have hfind := find?_of_first isAdminResult rs i h hprev hp
    cases rs with
    | nil => exact absurd h (by simp)
    | cons a as =>
      simp only [resolveLocationFromCandidates]
      rw [hfind]
  · intro rs hne hall
    cases rs with
    | nil => exact absurd rfl hne
    | cons a as =>
      have hfind : (a :: as).find? isAdminResult = none :=
        List.find?_eq_none.mpr (fun x hx => by simp [hall x hx])
      simp only [resolveLocationFromCandidates]
      rw [hfind]
      have hb := foldl_maxStep as a
      refine ⟨List.foldl maxStep a as, rfl, ?_, ?_⟩
      · rcases hb.1 with h1 | h1
        · rw [h1]; exact List.mem_cons_self a as
        · exact List.mem_cons_of_mem a h1
      · intro x hx
        rcases List.mem_cons.mp hx with h2 | h2
        · rw [h2]; exact hb.2.1
        · exact hb.2.2 x h2

/-- C5 witness: the selection at two concrete one-candidate lists, one
qualifying by place type, one not qualifying at all. -/
theorem claim_C5_resolve_location_witness :
    resolveLocationFromCandidates
      [⟨"x", 0, 0, ⟨0, 0, 0, 0⟩, "city", 0, "", 0, none, none, none⟩] =
      some ⟨"x", 0, 0, ⟨0, 0, 0, 0⟩, "city", 0, "", 0, none, none, none⟩ ∧
    ∃ r, resolveLocationFromCandidates
        [⟨"y", 0, 0, ⟨0, 0, 0, 0⟩, "building", 0, "", 0, none, none, none⟩] = some r ∧
      r ∈ [⟨"y", 0, 0, ⟨0, 0, 0, 0⟩, "building", 0, "", 0, none, none, none⟩] ∧
      ∀ x ∈ [(⟨"y", 0, 0, ⟨0, 0, 0, 0⟩, "building", 0, "", 0, none, none, none⟩ : GeoResult)],
        x.importance ≤ r.importance := by
  constructor
  · exact claim_C5_resolve_location.2.1
      [⟨"x", 0, 0, ⟨0, 0, 0, 0⟩, "city", 0, "", 0, none, none, none⟩] 0 (by decide)
      (by decide) (fun j hj => absurd hj (Nat.not_lt_zero j))
  · refine claim_C5_resolve_location.2.2
      [⟨"y", 0, 0, ⟨0, 0, 0, 0⟩, "building", 0, "", 0, none, none, none⟩]
      (by decide) ?_
    intro r hr
    rw [List.mem_singleton] at hr
    subst hr
    norm_num [isAdminResult, adminTypes]
    decide

/-- C4 counterexample: the claim's characterization "invalid with the
asset-type message iff both type and operator are null" fails at a
ParsedQuery whose type is the empty string: the source tests JavaScript
falsiness (`!parsed.type`), so the empty string also triggers the error
although it is not null. -/
theorem claim_C4_counterexample :
    (validateQuery ⟨some "", none, some "x", none, none, 50, ""⟩).valid = false ∧
    (∃ m, (validateQuery ⟨some "", none, some "x", none, none, 50, ""⟩).error = some m ∧
      includesS m "must specify an asset type or operator" = true) ∧
    (⟨some "", none, some "x", none, none, 50, ""⟩ : ParsedQuery).type ≠ none := by
  refine ⟨rfl, ⟨_, rfl, by decide⟩, by decide⟩

/-- C4 amended: for every ParsedQuery, validateQuery returns invalid with a
message containing "must specify an asset type or operator" iff type and
operator are both falsy (null or empty); otherwise invalid with a message
containing "must specify a geographic scope" iff region, near and country
are all falsy; otherwise valid with no error.  The function is pure: its
result is determined by these fields alone. -/
theorem claim_C4_validate (p : ParsedQuery) :
    ((validateQuery p).valid = false ∧
        (∃ m, (validateQuery p).error = some m ∧
          includesS m "must specify an asset type or operator" = true)
      ↔ (isFalsy p.type && isFalsy p.operator) = true) ∧
    ((validateQuery p).valid = false ∧
        (∃ m, (validateQuery p).error = some m ∧
          includesS m "must specify a geographic scope" = true)
      ↔ (isFalsy p.type && isFalsy p.operator) = false ∧
        (isFalsy p.region && isFalsy p.near && isFalsy p.country) = true) ∧
    ((validateQuery p).valid = true ∧ (validateQuery p).error = none
      ↔ (isFalsy p.type && isFalsy p.operator) = false ∧
        (isFalsy p.region && isFalsy p.near && isFalsy p.country) = false) := by
  have hm1 : includesS
      "Query must specify an asset type or operator. Examples: \"telecom towers in karnataka\" or \"type:data_center operator:google\""
      "must specify an asset type or operator" = true := by decide
  have hm2 : includesS
      "Query must specify an asset type or operator. Examples: \"telecom towers in karnataka\" or \"type:data_center operator:google\""
      "must specify a geographic scope" = false := by decide
  have hm3 : includesS
      "Query must specify a geographic scope. Examples: \"in mumbai\", \"near delhi\", or \"region:karnataka\""
      "must specify a geographic scope" = true := by decide
  have hm4 : includesS
      "Query must specify a geographic scope. Examples: \"in mumbai\", \"near delhi\", or \"region:karnataka\""
      "must specify an asset type or operator" = false := by decide
  by_cases h1 : (isFalsy p.type && isFalsy p.operator) = true
  · simp [validateQuery, h1, hm1, hm2]
  · by_cases h2 : (isFalsy p.region && isFalsy p.near && isFalsy p.country) = true
    · simp [validateQuery, h1, h2, hm3, hm4]
    · simp [validateQuery, h1, h2]

/-- Helper: a list that ends in a cons cell is not empty. -/
theorem append_cons_isEmpty {α : Type} (l : List α) (a : α) (l' : List α) :
    (l ++ a :: l').isEmpty = false := by
  cases l <;> rfl

/-- Helper: the endpoint loop returns the first success immediately, after
contacting exactly the preceding (failing) endpoints and the successful
one. -/
theorem runEndpoints_success (api : String) (els : List Overpass.OverpassElement)
    (post : List (String × Overpass.EndpointOutcome)) :
    ∀ (pre : List (String × Overpass.EndpointOutcome)) (lastE : Option Overpass.ExecError),
      (∀ p ∈ pre, Overpass.isFailureB p.2 = true) →
      Overpass.runEndpoints (pre ++ (api, .success els) :: post) lastE =
        (.ok (Overpass.normalizeElements els), pre.map Prod.fst ++ [api]) := by
  intro pre
  induction pre with
  | nil => intro lastE _; rfl
  | cons p pre' ih =>
    intro lastE hf
    obtain ⟨a, o⟩ := p
    have ho : Overpass.isFailureB o = true := hf (a, o) (List.mem_cons_self _ _)
    have hne := append_cons_isEmpty pre' (api, Overpass.EndpointOutcome.success els) post
    have ihe := fun e => ih e (fun q hq => hf q (List.mem_cons_of_mem _ hq))
    cases o with
    | success _ => simp [Overpass.isFailureB] at ho
    | httpError status =>
      rw [List.cons_append]
      simp [Overpass.runEndpoints, hne, ihe]
    | transportError m =>
      rw [List.cons_append]
      simp [Overpass.runEndpoints, hne, ihe]

/-- Helper: when every endpoint fails, the loop contacts them all and
propagates the failure of the last one. -/
theorem runEndpoints_all_fail :
    ∀ (pairs : List (String × Overpass.EndpointOutcome)) (lastE : Option Overpass.ExecError)
      (api : String) (o : Overpass.EndpointOutcome),
      (∀ p ∈ pairs, Overpass.isFailureB p.2 = true) →
      pairs.getLast? = some (api, o) →
      ∃ e, Overpass.outcomeFailure api o = some e ∧
        Overpass.runEndpoints pairs lastE = (.error e, pairs.map Prod.fst) := by
  intro pairs
  induction pairs with
  | nil => intro lastE api o _ h; simp at h
  | cons p rest ih =>
    intro lastE api o hf hlast
    obtain ⟨a, oo⟩ := p
    have ho : Overpass.isFailureB oo = true := hf (a, oo) (List.mem_cons_self _ _)
    cases rest with
    | nil =>
      have heq : (a, oo) = (api, o) := by simpa using hlast
      injection heq with h1 h2
      subst h1
      subst h2
      cases oo with
      | success _ => simp [Overpass.isFailureB] at ho
      | httpError status =>
        exact ⟨if status = 429 then .rateLimited a else .httpFailed status, rfl, rfl⟩
      | transportError m => exact ⟨.transport m, rfl, rfl⟩
    | cons q qs =>
      have hlast' : (q :: qs).getLast? = some (api, o) := by
        rw [← hlast]; rfl
      obtain ⟨e, he, hrun⟩ := ih lastE api o
        (fun x hx => hf x (List.mem_cons_of_mem _ hx)) hlast'
      have hrun2 : ∀ e', Overpass.runEndpoints (q :: qs) (some e') =
          (.error e, (q :: qs).map Prod.fst) := by
        intro e'
        obtain ⟨e2, he2, hrun2⟩ := ih (some e') api o
          (fun x hx => hf x (List.mem_cons_of_mem _ hx)) hlast'
        rw [he] at he2
        cases he2
        exact hrun2
      cases oo with
      | success _ => simp [Overpass.isFailureB] at ho
      | httpError status =>
        refine ⟨e, he, ?_⟩
        have hstep := hrun2
          (if status = 429 then Overpass.ExecError.rateLimited a
           else Overpass.ExecError.httpFailed status)
        calc Overpass.runEndpoints ((a, Overpass.EndpointOutcome.httpError status) :: q :: qs) lastE
            = ((Overpass.runEndpoints (q :: qs)
                  (some (if status = 429 then Overpass.ExecError.rateLimited a
                         else Overpass.ExecError.httpFailed status))).1,
               a :: (Overpass.runEndpoints (q :: qs)
                  (some (if status = 429 then Overpass.ExecError.rateLimited a
                         else Overpass.ExecError.httpFailed status))).2) := rfl
          _ = (Except.error e,
               List.map Prod.fst ((a, Overpass.EndpointOutcome.httpError status) :: q :: qs)) := by
              rw [hstep]
              rfl
      | transportError m =>
        refine ⟨e, he, ?_⟩
        have hstep := hrun2 (Overpass.ExecError.transport m)
        calc Overpass.runEndpoints ((a, Overpass.EndpointOutcome.transportError m) :: q :: qs) lastE
            = ((Overpass.runEndpoints (q :: qs) (some (Overpass.ExecError.transport m))).1,
               a :: (Overpass.runEndpoints (q :: qs) (some (Overpass.ExecError.transport m))).2) := rfl
          _ = (Except.error e,
               List.map Prod.fst ((a, Overpass.EndpointOutcome.transportError m) :: q :: qs)) := by
              rw [hstep]
              rfl

/-- C2: executeQuery tries the fixed ordered endpoint list strictly
sequentially: a success returns its normalized assets immediately and
contacts no later endpoint; any failure (429, other status, transport
error) moves on to the next endpoint when one remains; when every endpoint
fails the propagated error is the last endpoint's failure; and in
particular, with endpoint 1 rate-limited and endpoint 2 succeeding, exactly
the first two endpoints are contacted and endpoint 2's normalized results
are returned. -/
theorem claim_C2_executor_failover :
    (∀ (pre post : List (String × Overpass.EndpointOutcome)) api els lastE,
      (∀ p ∈ pre, Overpass.isFailureB p.2 = true) →
      Overpass.runEndpoints (pre ++ (api, .success els) :: post) lastE =
        (.ok (Overpass.normalizeElements els), pre.map Prod.fst ++ [api])) ∧
    (∀ pairs lastE api o,
      (∀ p ∈ pairs, Overpass.isFailureB p.2 = true) →
      pairs.getLast? = some (api, o) →
      ∃ e, Overpass.outcomeFailure api o = some e ∧
        Overpass.runEndpoints pairs lastE = (.error e, pairs.map Prod.fst)) ∧
    (∀ els o3, Overpass.executeQuery [.httpError 429, .success els, o3] =
      (.ok (Overpass.normalizeElements els),
       ["https://overpass-api.de/api/interpreter",
        "https://maps.mail.ru/osm/tools/overpass/api/interpreter"])) := by
  refine ⟨?_, runEndpoints_all_fail, ?_⟩
  · intro pre post api els lastE hf
    exact runEndpoints_success api els post pre lastE hf
  · intro els o3
    rfl

/-- C2 witness: the failover guarantees applied to concrete outcome
lists. -/
theorem claim_C2_executor_failover_witness :
    Overpass.runEndpoints
      [("a", .httpError 500), ("b", .success []), ("c", .httpError 404)] none =
      (.ok (Overpass.normalizeElements []), ["a", "b"]) ∧
    ∃ e, Overpass.outcomeFailure "b2" (.transportError "x") = some e ∧
      Overpass.runEndpoints [("a2", .httpError 429), ("b2", .transportError "x")] none =
        (.error e, ["a2", "b2"]) := by
  constructor
  · exact claim_C2_executor_failover.1 [("a", .httpError 500)] [("c", .httpError 404)]
      "b" [] none (by decide)
  · exact claim_C2_executor_failover.2.1 [("a2", .httpError 429), ("b2", .transportError "x")]
      none "b2" (.transportError "x") (by decide) (by decide)

/-- Helper: packing a valid scalar value and reading it back is the
identity. -/
theorem toNat_ofNat_valid (m : Nat) (h : m.isValidChar) :
    (Char.ofNat m).toNat = m := by
  rw [Char.ofNat, dif_pos h]
  rfl

/-- Helper: ASCII lowercasing is idempotent. -/
theorem toLower_idem (c : Char) : c.toLower.toLower = c.toLower := by
  show Char.toLower (Char.toLower c) = Char.toLower c
  unfold Char.toLower
  by_cases h : c.toNat ≥ 65 ∧ c.toNat ≤ 90
  · rw [if_pos h]
    have hv : (c.toNat + 32).isValidChar := Or.inl (by omega)
    have ht : (Char.ofNat (c.toNat + 32)).toNat = c.toNat + 32 := toNat_ofNat_valid _ hv
    have h2 : ¬((Char.ofNat (c.toNat + 32)).toNat ≥ 65 ∧
        (Char.ofNat (c.toNat + 32)).toNat ≤ 90) := by
      rw [ht]; omega
    rw [if_neg h2]
  · rw [if_neg h, if_neg h]

/-- Helper: lowerS is idempotent. -/
theorem lowerS_idem (s : String) : lowerS (lowerS s) = lowerS s := by
  simp only [lowerS]
  congr 1
  rw [List.map_map]
  rw [show Char.toLower ∘ Char.toLower = Char.toLower from funext toLower_idem]

/-- Helper: a structured operator value (lowercased, underscores replaced
by spaces) is already lowercase. -/
theorem lower_underscore (v : String) :
    lowerS (underscoreToSpace (lowerS v)) = underscoreToSpace (lowerS v) := by
  simp only [lowerS, underscoreToSpace]
  congr 1
  rw [List.map_map, List.map_map, List.map_map]
  congr 1
  funext c
  show Char.toLower (if Char.toLower c = '_' then ' ' else Char.toLower c) =
    (if Char.toLower c = '_' then ' ' else Char.toLower c)
  by_cases hd : Char.toLower c = '_'
  · rw [if_pos hd]
    decide
  · rw [if_neg hd]
    exact toLower_idem c

/-- Helper: the three branches of parseQuery. -/
theorem parseQuery_cases (q : String) :
    parseQuery q = ⟨none, none, none, none, none, 50, ""⟩ ∨
    (isStructuredQuery (trimS q) = true ∧ parseQuery q = parseStructured (trimS q)) ∨
    (isStructuredQuery (trimS q) = false ∧ parseQuery q = parseNatural (trimS q)) := by
  unfold parseQuery
  by_cases h1 : trimS q = ""
  · exact Or.inl (by simp [h1])
  · by_cases h2 : isStructuredQuery (trimS q)
    · exact Or.inr (Or.inl ⟨h2, by simp [h1, h2]⟩)
    · exact Or.inr (Or.inr ⟨Bool.not_eq_true _ ▸ h2, by simp [h1, h2]⟩)

/-- Helper: a structured type field is the lowercased captured value and
passes the taxonomy lookup. -/
theorem parseStructured_type_inv (qq t : String) :
    (parseStructured qq).type = some t →
    ∃ tv, fieldCapture "type" qq = some tv ∧ t = lowerS tv ∧
      (ASSET_TYPE_MAP.lookup (lowerS tv)).isSome = true := by
  intro h
  simp only [parseStructured] at h
  split at h
  next tv heq =>
    split at h
    next hl =>
      injection h with h'
      exact ⟨tv, heq, h'.symm, hl⟩
    next hl => exact absurd h (by simp)
  next heq => exact absurd h (by simp)

/-- Helper: a structured operator field is the lowercased,
underscore-replaced captured value. -/
theorem parseStructured_operator_inv (qq s : String) :
    (parseStructured qq).operator = some s →
    ∃ v, fieldCapture "operator" qq = some v ∧ s = underscoreToSpace (lowerS v) := by
  intro h
  simp only [parseStructured] at h
  cases hc : fieldCapture "operator" qq with
  | none => rw [hc] at h; exact absurd h (by simp)
  | some v =>
    rw [hc] at h
    simp only [Option.map_some'] at h
    injection h with h'
    exact ⟨v, rfl, h'.symm⟩

/-- Helper: a natural-mode type is one of the canonical types of
TYPE_PATTERNS. -/
theorem extractType_mem (qq t : String) :
    extractType qq = some t → t ∈ TYPE_PATTERNS.map Prod.snd := by
  intro h
  unfold extractType at h
  obtain ⟨pt, hmem, hf⟩ := findSome?_if_mem _ TYPE_PATTERNS t h
  refine List.mem_map.mpr ⟨pt, hmem, ?_⟩
  split at hf
  next => injection hf
  next => exact absurd hf (by simp)

/-- Helper: a natural-mode operator is one of the canonical names of
OPERATOR_ALIASES. -/
theorem extractOperator_mem (qq s : String) :
    extractOperator qq = some s → s ∈ OPERATOR_ALIASES.map Prod.fst := by
  intro h
  unfold extractOperator at h
  obtain ⟨ca, hmem, hf⟩ := findSome?_if_mem _ OPERATOR_ALIASES s h
  refine List.mem_map.mpr ⟨ca, hmem, ?_⟩
  split at hf
  next => injection hf
  next => exact absurd hf (by simp)

set_option maxRecDepth 1000000 in
/-- C6: parseQuery("telecom towers in karnataka") selects natural mode (the
structured-prefix test fails) and returns type "telecom" (the first
matching rule of the ordered type-pattern list), operator null, region
"karnataka" (via the `in <X>` pattern), near null, country null and
radius 50. -/
theorem claim_C6_parse_example :
    isStructuredQuery "telecom towers in karnataka" = false ∧
    parseQuery "telecom towers in karnataka" =
      { type := some "telecom", operator := none, region := some "karnataka",
        country := none, near := none, radius := 50,
        raw := "telecom towers in karnataka" } := by
  exact ⟨by decide, by decide⟩

set_option maxRecDepth 1000000 in
/-- C1 counterexample: the claim says the parsed radius is clamp(r, 1, 500),
never below 1, with `radius:0` parsing to 1; the source only caps from
above (`Math.min(r, 500)`), so `radius:0` parses to radius 0. -/
theorem claim_C1_radius_counterexample :
    (parseQuery "radius:0").radius = 0 ∧ (parseQuery "radius:0").radius ≠ 1 := by
  exact ⟨by decide, by decide⟩

set_option maxRecDepth 1000000 in
/-- C1 amended: for every input string the parsed radius equals
min(r, 500) when a radius token/phrase yields the integer r, and 50 when
none is present; the radius never exceeds 500 but has no lower clamp
(`radius:600` caps to 500, while `radius:0` stays 0). -/
theorem claim_C1_radius_amended :
    (∀ q : String, (parseQuery q).radius = radiusSpec q) ∧
    (∀ q : String, (parseQuery q).radius ≤ 500) ∧
    (parseQuery "radius:600").radius = 500 := by
  have hmain : ∀ q : String, (parseQuery q).radius = radiusSpec q := by
    intro q
    by_cases h1 : trimS q = ""
    · simp [parseQuery, radiusSpec, h1]
    · by_cases h2 : isStructuredQuery (trimS q)
      · simp [parseQuery, radiusSpec, h1, h2, parseStructured]
      · simp [parseQuery, radiusSpec, h1, h2, parseNatural]
  refine ⟨hmain, ?_, by decide⟩
  intro q
  rw [hmain q]
  unfold radiusSpec
  by_cases h1 : trimS q = ""
  · rw [if_pos h1]
    omega
  · by_cases h2 : isStructuredQuery (trimS q) = true
    · rw [if_neg h1, if_pos h2]
      cases Option.map natOfDigits (captureOf (RE.seq (lit "radius:") (RE.grp digits1)) (trimS q).data) with
      | none => exact (by omega : (50 : Nat) ≤ 500)
      | some r => exact Nat.min_le_right r 500
    · rw [if_neg h1, if_neg h2]
      cases Option.map natOfDigits (captureOf RADIUS_PATTERN (trimS q).data) with
      | none => exact (by omega : (50 : Nat) ≤ 500)
      | some r => exact Nat.min_le_right r 500

/-- C9: every type the parser can produce is a key of the taxonomy, so the
`Unknown asset type` branch of buildOverpassQuery is unreachable on
parser-produced types (structured mode checks membership explicitly, and
every canonical type of the natural-mode TYPE_PATTERNS list is a taxonomy
key). -/
theorem claim_C9_types_in_taxonomy :
    ∀ (q t : String), (parseQuery q).type = some t →
      buildOverpassQueryCheck t = .ok () := by
  intro q t h
  have hkey : (ASSET_TYPE_MAP.lookup t).isSome = true := by
    rcases parseQuery_cases q with hq | ⟨_, hq⟩ | ⟨_, hq⟩
    · rw [hq] at h; exact absurd h (by simp)
    · rw [hq] at h
      obtain ⟨tv, _, ht, hl⟩ := parseStructured_type_inv (trimS q) t h
      rw [ht]; exact hl
    · rw [hq] at h
      have hmem : t ∈ TYPE_PATTERNS.map Prod.snd := extractType_mem (trimS q) t h
      have hall : (TYPE_PATTERNS.map Prod.snd).all
          (fun s => (ASSET_TYPE_MAP.lookup s).isSome) = true := by decide
      exact List.all_eq_true.mp hall t hmem
  simp [buildOverpassQueryCheck, hkey]

set_option maxRecDepth 1000000 in
/-- C9 witness: the guard accepts the type parsed from a concrete natural
query and from a concrete structured query. -/
theorem claim_C9_types_in_taxonomy_witness :
    buildOverpassQueryCheck "telecom" = .ok () ∧
    buildOverpassQueryCheck "data_center" = .ok () := by
  constructor
  · exact claim_C9_types_in_taxonomy "telecom towers in karnataka" "telecom" (by decide)
  · exact claim_C9_types_in_taxonomy "type:data_center region:california" "data_center" (by decide)

set_option maxRecDepth 1000000 in
/-- C10 counterexample: two structured queries differing only in operator
case do not yield identical ParsedQuery values — the raw field preserves
the original text — although every other field and the search-cache key
agree. -/
theorem claim_C10_operator_case_counterexample :
    parseQuery "type:telecom operator:GOOGLE region:x" ≠
      parseQuery "type:telecom operator:google region:x" ∧
    (parseQuery "type:telecom operator:GOOGLE region:x").raw ≠
      (parseQuery "type:telecom operator:google region:x").raw ∧
    Route.cacheKeyOf (parseQuery "type:telecom operator:GOOGLE region:x") =
      Route.cacheKeyOf (parseQuery "type:telecom operator:google region:x") := by
  exact ⟨by decide, by decide, by decide⟩

set_option maxRecDepth 1000000 in
/-- C10 amended: the parser lowercases every operator and type it produces
(structured mode lowercases the captured values, natural mode returns
canonical table entries, all lowercase) but preserves the letter case of
region, country and near; consequently structured queries differing only in
operator case agree on every ParsedQuery field except raw and share a
search-cache key, while queries differing only in region case differ in
region and get distinct cache keys. -/
theorem claim_C10_case_handling :
    (∀ q s : String, (parseQuery q).operator = some s → lowerS s = s) ∧
    (∀ q t : String, (parseQuery q).type = some t → lowerS t = t) ∧
    ((parseQuery "type:telecom operator:GOOGLE region:x").type =
        (parseQuery "type:telecom operator:google region:x").type ∧
      (parseQuery "type:telecom operator:GOOGLE region:x").operator =
        (parseQuery "type:telecom operator:google region:x").operator ∧
      (parseQuery "type:telecom operator:GOOGLE region:x").region =
        (parseQuery "type:telecom operator:google region:x").region ∧
      (parseQuery "type:telecom operator:GOOGLE region:x").country =
        (parseQuery "type:telecom operator:google region:x").country ∧
      (parseQuery "type:telecom operator:GOOGLE region:x").near =
        (parseQuery "type:telecom operator:google region:x").near ∧
      (parseQuery "type:telecom operator:GOOGLE region:x").radius =
        (parseQuery "type:telecom operator:google region:x").radius) ∧
    ((parseQuery "type:telecom operator:google region:Mumbai").region ≠
        (parseQuery "type:telecom operator:google region:mumbai").region ∧
      Route.cacheKeyOf (parseQuery "type:telecom operator:google region:Mumbai") ≠
        Route.cacheKeyOf (parseQuery "type:telecom operator:google region:mumbai")) := by
  refine ⟨?_, ?_, by decide, by decide⟩
  · intro q s h
    rcases parseQuery_cases q with hq | ⟨_, hq⟩ | ⟨_, hq⟩
    · rw [hq] at h; exact absurd h (by simp)
    · rw [hq] at h
      obtain ⟨v, _, hs⟩ := parseStructured_operator_inv (trimS q) s h
      rw [hs]
      exact lower_underscore v
    · rw [hq] at h
      have hop : extractOperator (trimS q) = some s := h
      have hmem := extractOperator_mem (trimS q) s hop
      have hall : (OPERATOR_ALIASES.map Prod.fst).all
          (fun x => decide (lowerS x = x)) = true := by decide
      exact of_decide_eq_true (List.all_eq_true.mp hall s hmem)
  · intro q t h
    rcases parseQuery_cases q with hq | ⟨_, hq⟩ | ⟨_, hq⟩
    · rw [hq] at h; exact absurd h (by simp)
    · rw [hq] at h
      obtain ⟨tv, _, ht, _⟩ := parseStructured_type_inv (trimS q) t h
      rw [ht]
      exact lowerS_idem tv
    · rw [hq] at h
      have hty : extractType (trimS q) = some t := h
      have hmem := extractType_mem (trimS q) t hty
      have hall : (TYPE_PATTERNS.map Prod.snd).all
          (fun x => decide (lowerS x = x)) = true := by decide
      exact of_decide_eq_true (List.all_eq_true.mp hall t hmem)

/-- Helper: the outer catch never produces a success response. -/
theorem catchError_ne_ok (msg : String) (r : Route.SearchResult) :
    Route.catchError msg ≠ Route.RouteResponse.ok r := by
  unfold Route.catchError
  split
  · simp
  · split <;> simp

/-- Helper: the post-geocoding pipeline stages leave the search cache
unchanged on every error outcome and extend it by exactly the returned
result under the given key on success. -/
theorem pipelineTail_searchCache (env : Route.RouteEnv) (st0 st1 : Route.RouteState)
    (calls : List Route.ExtCall) (parsed : ParsedQuery) (key : Route.CacheKey)
    (g : GeoResult) (hsc : st1.searchCache = st0.searchCache) :
    (∀ s m c, (Route.pipelineTail env st0 st1 calls parsed key g).1 =
        Route.RouteResponse.err s m c →
      (Route.pipelineTail env st0 st1 calls parsed key g).2.1.searchCache =
        st0.searchCache) ∧
    (∀ r, (Route.pipelineTail env st0 st1 calls parsed key g).1 =
        Route.RouteResponse.ok r →
      (Route.pipelineTail env st0 st1 calls parsed key g).2.1.searchCache =
        Route.cacheSearchResult st0.searchCache key r) := by
  unfold Route.pipelineTail
  simp only []
  split
  · constructor
    · intro s m c _
      exact hsc
    · intro r hr
      exact absurd hr (by simp)
  · split
    next e heq =>
      constructor
      · intro s m c _
        exact hsc
      · intro r hr
        exact absurd hr (catchError_ne_ok _ r)
    next assets heq =>
      constructor
      · intro s m c hr
        exact absurd hr (by simp)
      · intro r hr
        injection hr with hr'
        rw [← hr']

/-- Helper: the location-resolution stage and everything after it leaves
the search cache unchanged on every error outcome and extends it by exactly
the returned result under the given key on success. -/
theorem geoStage_searchCache (env : Route.RouteEnv) (st : Route.RouteState)
    (parsed : ParsedQuery) (key : Route.CacheKey) (locationQuery : String) :
    (∀ s m c, (Route.geoStage env st parsed key locationQuery).1 =
        Route.RouteResponse.err s m c →
      (Route.geoStage env st parsed key locationQuery).2.1.searchCache =
        st.searchCache) ∧
    (∀ r, (Route.geoStage env st parsed key locationQuery).1 =
        Route.RouteResponse.ok r →
      (Route.geoStage env st parsed key locationQuery).2.1.searchCache =
        Route.cacheSearchResult st.searchCache key r) := by
  unfold Route.geoStage
  cases hgc : Route.getCachedGeoResult st.geoCache locationQuery with
  | some g => exact pipelineTail_searchCache env st st [] parsed key g rfl
  | none =>
    cases hres : env.resolveLocation locationQuery with
    | error m =>
      constructor
      · intro s m2 c _; rfl
      · intro r hr; exact absurd hr (catchError_ne_ok m r)
    | ok og =>
      cases og with
      | none =>
        constructor
        · intro s m2 c _; rfl
        · intro r hr; exact absurd hr (by simp)
      | some g =>
        exact pipelineTail_searchCache env st
          { st with geoCache := Route.cacheGeoResult st.geoCache locationQuery g }
          [Route.ExtCall.geocodeCall locationQuery] parsed key g rfl

/-- C3: the search cache only ever receives fully-successful results: the
POST pipeline consults the cache (keyed by the canonical filter tuple, not
the raw text) before any network call and returns a hit without external
calls and without touching state; cacheSearchResult is invoked exactly once
after geocoding, execution, normalization and stats aggregation all
succeed; and on every error response the search cache is unchanged. -/
theorem claim_C3_cache_invariant (env : Route.RouteEnv) (st : Route.RouteState)
    (body : Option String) :
    (∀ s m c, (Route.POST env st body).1 = Route.RouteResponse.err s m c →
      (Route.POST env st body).2.1.searchCache = st.searchCache) ∧
    (∀ r, (Route.POST env st body).1 = Route.RouteResponse.ok r →
      ((Route.POST env st body).2.1 = st ∧ (Route.POST env st body).2.2 = [] ∧
        ∃ q, body = some q ∧
          Route.getCachedSearchResult st.searchCache
            (Route.cacheKeyOf (parseQuery q)) = some r) ∨
      (∃ q, body = some q ∧
        (Route.POST env st body).2.1.searchCache =
          Route.cacheSearchResult st.searchCache
            (Route.cacheKeyOf (parseQuery q)) r)) ∧
    (∀ (p : ParsedQuery) (raw2 : String),
      Route.cacheKeyOf p = Route.cacheKeyOf { p with raw := raw2 }) := by
  refine ⟨?_, ?_, fun p raw2 => rfl⟩
  · intro s m c
    cases body with
    | none => intro _; rfl
    | some q =>
      simp only [Route.POST]
      split
      · intro _; rfl
      · split
        · intro _; rfl
        · split
          · intro _; rfl
          · split
            next cached heq => intro hr; exact absurd hr (by simp)
            next heq =>
              split
              · intro _; rfl
              · exact (geoStage_searchCache env st _ _ _).1 s m c
  · intro r
    cases body with
    | none => intro hr; exact absurd hr (by simp [Route.POST])
    | some q =>
      simp only [Route.POST]
      split
      · intro hr; exact absurd hr (by simp)
      · split
        · intro hr; exact absurd hr (by simp)
        · split
          · intro hr; exact absurd hr (by simp)
          · split
            next cached heq =>
              intro hr
              injection hr with hr'
              refine Or.inl ⟨rfl, rfl, q, rfl, ?_⟩
              rw [← hr']
              exact heq
            next heq =>
              split
              · intro hr; exact absurd hr (by simp)
              · intro hr
                exact Or.inr ⟨q, rfl, (geoStage_searchCache env st _ _ _).2 r hr⟩

set_option maxRecDepth 1000000 in
/-- C10 witness: the lowercasing guarantees applied at a concrete parsed
operator and type. -/
theorem claim_C10_case_handling_witness :
    lowerS "google" = "google" ∧ lowerS "telecom" = "telecom" := by
  constructor
  · exact claim_C10_case_handling.1 "type:telecom operator:GOOGLE region:x" "google" (by decide)
  · exact claim_C10_case_handling.2.1 "type:telecom operator:GOOGLE region:x" "telecom" (by decide)

/-- C3 witness: the error-path guarantee applied at a concrete request with
a missing body: the search cache is left unchanged. -/
theorem claim_C3_cache_invariant_witness :
    (Route.POST ⟨fun _ => .ok none, fun _ => .error .noEndpoints⟩ ⟨[], []⟩ none).2.1.searchCache =
      ([] : List (Route.CacheKey × Route.SearchResult)) :=
  (claim_C3_cache_invariant ⟨fun _ => .ok none, fun _ => .error .noEndpoints⟩ ⟨[], []⟩ none).1
    400 "Query parameter is required" "MISSING_QUERY" rfl

end Sightline
